import Mathlib

/-!
Verification of the measurement/quantity subsystem of the ProbablyTasty
recipe manager: the unit-conversion service (`src/services/unit_conversion.py`),
the recipe-scaling service (`src/services/recipe_scaling_service.py`), and the
shopping-list consolidation service (`src/services/shopping_list_service.py`),
together with the fraction formatter of `src/ui/unit_conversion_dialog.py`.

The embedding replaces Python's binary floating point by exact rational
arithmetic.  Rationals are represented by the kernel-reducible type `PRat`
(a plain numerator/denominator pair, normalized by every operation), so that
all concrete runs of the embedded services can be checked with `decide`.
Python strings are Lean `String`s; the Python string methods used by the
services (`lower`, `strip`, `split`, `in`, `endswith`) are re-implemented
structurally over the character list so they also reduce in the kernel.
`float(...)` applied to a string is modelled by `pyFloat?`, a parser for
optionally signed decimal literals (the only forms the services receive).
Python `dict`s are association lists in insertion order, `None`-able values
are `Option`s, and a value that may be a number or a string (an ingredient
quantity) is the sum type `PyVal`.  Exceptions are modelled with `Except`:
a Python function that catches exceptions internally is embedded as a total
function.
-/

set_option maxRecDepth 10000

/-- Exact rational numbers as plain integer pairs.  Every arithmetic
operation normalizes (gcd-reduced, positive denominator), so values built by
the embedded code are always in lowest terms and kernel-reducible. -/
structure PRat where
  num : ℤ
  den : ℤ
deriving DecidableEq, Repr

/-- Normalize: positive denominator, gcd-reduced.  (All divisions are exact.) -/
def PRat.norm (q : PRat) : PRat :=
  let s : ℤ := if q.den < 0 then -1 else 1
  let g : ℤ := Int.gcd q.num q.den
  if g = 0 then ⟨0, 1⟩ else ⟨s * q.num / g, s * q.den / g⟩

/-- Build a normalized rational from numerator and denominator. -/
def pq (n d : ℤ) : PRat := PRat.norm ⟨n, d⟩

def PRat.add (a b : PRat) : PRat := PRat.norm ⟨a.num * b.den + b.num * a.den, a.den * b.den⟩

def PRat.sub (a b : PRat) : PRat := PRat.norm ⟨a.num * b.den - b.num * a.den, a.den * b.den⟩

def PRat.mul (a b : PRat) : PRat := PRat.norm ⟨a.num * b.num, a.den * b.den⟩

def PRat.div (a b : PRat) : PRat := PRat.norm ⟨a.num * b.den, a.den * b.num⟩

/-- `a ≤ b` for rationals with positive denominators. -/
def PRat.leB (a b : PRat) : Bool := decide (a.num * b.den ≤ b.num * a.den)

/-- `a < b` for rationals with positive denominators. -/
def PRat.ltB (a b : PRat) : Bool := decide (a.num * b.den < b.num * a.den)

/-- Absolute value (for rationals with positive denominator). -/
def PRat.absR (a : PRat) : PRat := ⟨(a.num.natAbs : ℤ), a.den⟩

/-- Mathematical floor (Python `math.floor` / float `%` semantics). -/
def PRat.floorI (a : PRat) : ℤ := Int.fdiv a.num a.den

/-- Truncation toward zero (Python `int(...)` on a float). -/
def PRat.truncI (a : PRat) : ℤ := Int.tdiv a.num a.den

/-- Python float `%`: `a - floor(a / b) * b`. -/
def PRat.pymod (a b : PRat) : PRat := a.sub (PRat.mul (pq (PRat.floorI (a.div b)) 1) b)

/-- Round half-to-even to an integer, as Python's `round` does. -/
def roundHalfEvenI (a : PRat) : ℤ :=
  let fl := PRat.floorI a
  let r := a.num - fl * a.den
  if 2 * r < a.den then fl
  else if a.den < 2 * r then fl + 1
  else if fl % 2 = 0 then fl else fl + 1

/-- Python `round(x, n)` (banker's rounding at the n-th decimal, idealized
over exact rationals). -/
def pyRound (a : PRat) (n : ℕ) : PRat :=
  pq (roundHalfEvenI (PRat.norm ⟨a.num * 10 ^ n, a.den⟩)) (10 ^ n)

/-- Semantics of a `PRat` as a Mathlib rational (`n/0 = 0` convention). -/
def toQ (a : PRat) : ℚ := (a.num : ℚ) / (a.den : ℚ)

/- ## Kernel-reducible string helpers (Python string methods) -/

/-- Decimal digits of a natural number (fuel-based, structural). -/
def natDigitsAux : ℕ → ℕ → List Char
  | 0, _ => []
  | fuel + 1, n => if n = 0 then [] else natDigitsAux fuel (n / 10) ++ [Char.ofNat (48 + n % 10)]

/-- Python `str(...)` of a natural number. -/
def natToStr (n : ℕ) : String := if n = 0 then "0" else String.mk (natDigitsAux n n)

/-- Python `str(...)` of an integer. -/
def intToStr (i : ℤ) : String := if i < 0 then "-" ++ natToStr i.natAbs else natToStr i.natAbs

/-- Python whitespace (the characters `str.strip` removes by default). -/
def isPySpace (c : Char) : Bool :=
  c == ' ' || c == '\t' || c == '\n' || c == '\r' || c == '\x0b' || c == '\x0c'

def pyStripL (l : List Char) : List Char :=
  ((l.dropWhile isPySpace).reverse.dropWhile isPySpace).reverse

/-- Python `str.strip()`. -/
def pyStrip (s : String) : String := String.mk (pyStripL s.data)

/-- Python `str.lower()` (ASCII, as used by the services). -/
def pyLower (s : String) : String := String.mk (s.data.map Char.toLower)

def listStartsWith : List Char → List Char → Bool
  | [], _ => true
  | _ :: _, [] => false
  | a :: as, b :: bs => a == b && listStartsWith as bs

/-- Contiguous-sublist test on character lists. -/
def listContainsSub (needle hay : List Char) : Bool :=
  match hay with
  | [] => listStartsWith needle []
  | _ :: t => listStartsWith needle hay || listContainsSub needle t

/-- Python's substring operator `needle in hay`. -/
def pyIn (needle hay : String) : Bool := listContainsSub needle.data hay.data

/-- Python `str.split(sep)` for a one-character separator. -/
def splitOnChar (c : Char) : List Char → List (List Char)
  | [] => [[]]
  | a :: t =>
    let r := splitOnChar c t
    if a == c then [] :: r
    else
      match r with
      | h :: t2 => (a :: h) :: t2
      | [] => [[a]]

/-- Python `str.endswith("s")`: last character is `s`. -/
def endsWithS (s : String) : Bool :=
  match s.data.getLast? with
  | some c => c == 's'
  | Option.none => false

/-- Python `", ".join(...)`. -/
def joinWith (sep : String) : List String → String
  | [] => ""
  | [x] => x
  | x :: xs => x ++ sep ++ joinWith sep xs

/-- Order-preserving duplicate removal (models `list(set(...))` up to the
unspecified ordering of a Python `set`). -/
def dedupFirstAux {α : Type} [BEq α] : List α → List α → List α
  | _, [] => []
  | seen, x :: xs =>
    if seen.contains x then dedupFirstAux seen xs else x :: dedupFirstAux (x :: seen) xs

def dedupFirst {α : Type} [BEq α] (l : List α) : List α := dedupFirstAux [] l

/-- Value of a digit list. -/
def digitsToNat (l : List Char) : ℕ := l.foldl (fun a c => a * 10 + (c.toNat - 48)) 0

/-- Python `float(...)` applied to a string: strips whitespace, optional
sign, decimal digits with an optional decimal point.  (Exponent forms and
`inf`/`nan`, which the services never receive, are rejected.) -/
def pyFloat? (s : String) : Option PRat :=
  let l := pyStripL s.data
  let sgn : ℤ := match l with
    | '-' :: _ => -1
    | _ => 1
  let l2 := match l with
    | '-' :: r => r
    | '+' :: r => r
    | _ => l
  let ip := l2.takeWhile Char.isDigit
  let rest := l2.dropWhile Char.isDigit
  match rest with
  | [] => if ip.isEmpty then Option.none else some (pq (sgn * digitsToNat ip) 1)
  | '.' :: fr =>
    if fr.all Char.isDigit && !(ip.isEmpty && fr.isEmpty) then
      some (pq (sgn * (digitsToNat ip * 10 ^ fr.length + digitsToNat fr)) (10 ^ fr.length))
    else Option.none
  | _ => Option.none

/-- Python `f"{x:.nf}"` fixed-point formatting of an exact rational. -/
def formatFixed (x : PRat) (n : ℕ) : String :=
  let m := roundHalfEvenI (PRat.norm ⟨x.num * 10 ^ n, x.den⟩)
  let ma := m.natAbs
  let ip := ma / 10 ^ n
  let fp := ma % 10 ^ n
  let fps := natToStr fp
  let pad := String.mk (List.replicate (n - fps.length) '0')
  (if m < 0 then "-" else "") ++ natToStr ip ++ (if n = 0 then "" else "." ++ pad ++ fps)

/-- Python `repr`/f-string rendering of a float that holds a short decimal
value: an integer renders as `"8.0"`, otherwise the shortest exact decimal
expansion is printed. -/
def pyReprRat (x : PRat) : String :=
  match (List.range 41).find? (fun k => (PRat.norm ⟨x.num * 10 ^ k, x.den⟩).den == 1) with
  | some 0 => intToStr (PRat.norm x).num ++ ".0"
  | some k => formatFixed x k
  | Option.none => formatFixed x 17

instance {ε α : Type} [DecidableEq ε] [DecidableEq α] : DecidableEq (Except ε α) := fun a b =>
  match a, b with
  | .ok x, .ok y => if h : x = y then .isTrue (by rw [h]) else .isFalse (by simp [h])
  | .ok _, .error _ => .isFalse (by simp)
  | .error _, .ok _ => .isFalse (by simp)
  | .error x, .error y => if h : x = y then .isTrue (by rw [h]) else .isFalse (by simp [h])

/- ## Unit table (`src/services/unit_conversion.py`, `UNITS` and friends) -/

inductive UnitType where
  | mass
  | volume
  | count
deriving DecidableEq, Repr

inductive MeasSystem where
  | metric
  | imperial
  | us_customary
  | universal
deriving DecidableEq, Repr

/-- `UnitDefinition` dataclass: definition of a measurement unit. -/
structure UnitDefinition where
  uname : String
  symbol : String
  unit_type : UnitType
  measSystem : MeasSystem
  to_base_factor : PRat
deriving DecidableEq, Repr

/-- The module-level `UNITS` dict, in insertion order.  Factors are the
source's decimal literals as exact rationals. -/
def UNITS : List (String × UnitDefinition) := [
  ("g", ⟨"gram", "g", .mass, .metric, pq 1 1⟩),
  ("gram", ⟨"gram", "g", .mass, .metric, pq 1 1⟩),
  ("grams", ⟨"gram", "g", .mass, .metric, pq 1 1⟩),
  ("kg", ⟨"kilogram", "kg", .mass, .metric, pq 1000 1⟩),
  ("kilogram", ⟨"kilogram", "kg", .mass, .metric, pq 1000 1⟩),
  ("kilograms", ⟨"kilogram", "kg", .mass, .metric, pq 1000 1⟩),
  ("mg", ⟨"milligram", "mg", .mass, .metric, pq 1 1000⟩),
  ("milligram", ⟨"milligram", "mg", .mass, .metric, pq 1 1000⟩),
  ("milligrams", ⟨"milligram", "mg", .mass, .metric, pq 1 1000⟩),
  ("oz", ⟨"ounce", "oz", .mass, .imperial, pq 283495 10000⟩),
  ("ounce", ⟨"ounce", "oz", .mass, .imperial, pq 283495 10000⟩),
  ("ounces", ⟨"ounce", "oz", .mass, .imperial, pq 283495 10000⟩),
  ("lb", ⟨"pound", "lb", .mass, .imperial, pq 453592 1000⟩),
  ("lbs", ⟨"pound", "lb", .mass, .imperial, pq 453592 1000⟩),
  ("pound", ⟨"pound", "lb", .mass, .imperial, pq 453592 1000⟩),
  ("pounds", ⟨"pound", "lb", .mass, .imperial, pq 453592 1000⟩),
  ("ml", ⟨"milliliter", "ml", .volume, .metric, pq 1 1⟩),
  ("milliliter", ⟨"milliliter", "ml", .volume, .metric, pq 1 1⟩),
  ("milliliters", ⟨"milliliter", "ml", .volume, .metric, pq 1 1⟩),
  ("l", ⟨"liter", "l", .volume, .metric, pq 1000 1⟩),
  ("liter", ⟨"liter", "l", .volume, .metric, pq 1000 1⟩),
  ("liters", ⟨"liter", "l", .volume, .metric, pq 1000 1⟩),
  ("tsp", ⟨"teaspoon", "tsp", .volume, .us_customary, pq 492892 100000⟩),
  ("teaspoon", ⟨"teaspoon", "tsp", .volume, .us_customary, pq 492892 100000⟩),
  ("teaspoons", ⟨"teaspoon", "tsp", .volume, .us_customary, pq 492892 100000⟩),
  ("tbsp", ⟨"tablespoon", "tbsp", .volume, .us_customary, pq 147868 10000⟩),
  ("tablespoon", ⟨"tablespoon", "tbsp", .volume, .us_customary, pq 147868 10000⟩),
  ("tablespoons", ⟨"tablespoon", "tbsp", .volume, .us_customary, pq 147868 10000⟩),
  ("cup", ⟨"cup", "cup", .volume, .us_customary, pq 236588 1000⟩),
  ("cups", ⟨"cup", "cup", .volume, .us_customary, pq 236588 1000⟩),
  ("fl oz", ⟨"fluid ounce", "fl oz", .volume, .us_customary, pq 295735 10000⟩),
  ("fluid ounce", ⟨"fluid ounce", "fl oz", .volume, .us_customary, pq 295735 10000⟩),
  ("fluid ounces", ⟨"fluid ounce", "fl oz", .volume, .us_customary, pq 295735 10000⟩),
  ("pt", ⟨"pint", "pt", .volume, .us_customary, pq 473176 1000⟩),
  ("pint", ⟨"pint", "pt", .volume, .us_customary, pq 473176 1000⟩),
  ("pints", ⟨"pint", "pt", .volume, .us_customary, pq 473176 1000⟩),
  ("qt", ⟨"quart", "qt", .volume, .us_customary, pq 946353 1000⟩),
  ("quart", ⟨"quart", "qt", .volume, .us_customary, pq 946353 1000⟩),
  ("quarts", ⟨"quart", "qt", .volume, .us_customary, pq 946353 1000⟩),
  ("gal", ⟨"gallon", "gal", .volume, .us_customary, pq 378541 100⟩),
  ("gallon", ⟨"gallon", "gal", .volume, .us_customary, pq 378541 100⟩),
  ("gallons", ⟨"gallon", "gal", .volume, .us_customary, pq 378541 100⟩),
  ("drop", ⟨"drop", "drop", .volume, .us_customary, pq 5 100⟩),
  ("drops", ⟨"drop", "drop", .volume, .us_customary, pq 5 100⟩),
  ("dash", ⟨"dash", "dash", .volume, .us_customary, pq 62 100⟩),
  ("pinch", ⟨"pinch", "pinch", .volume, .us_customary, pq 31 100⟩),
  ("count", ⟨"count", "count", .count, .universal, pq 1 1⟩),
  ("piece", ⟨"piece", "piece", .count, .universal, pq 1 1⟩),
  ("pieces", ⟨"piece", "piece", .count, .universal, pq 1 1⟩),
  ("whole", ⟨"whole", "whole", .count, .universal, pq 1 1⟩),
  ("clove", ⟨"clove", "clove", .count, .universal, pq 1 1⟩),
  ("cloves", ⟨"clove", "clove", .count, .universal, pq 1 1⟩)]

/-- Exact-key lookup in the `UNITS` dict. -/
def lookupUnit (u : String) : Option UnitDefinition :=
  (UNITS.find? (fun p => p.1 == u)).map (·.2)

/-- `INGREDIENT_DENSITIES`: grams per ml, in insertion order. -/
def INGREDIENT_DENSITIES : List (String × PRat) := [
  ("water", pq 1 1),
  ("milk", pq 103 100),
  ("cream", pq 101 100),
  ("butter", pq 911 1000),
  ("oil", pq 92 100),
  ("honey", pq 142 100),
  ("sugar", pq 845 1000),
  ("flour", pq 507 1000),
  ("salt", pq 1217 1000)]

/-- `INGREDIENT_UNIT_OVERRIDES`: `(ingredient, unit) → grams per unit`. -/
def INGREDIENT_UNIT_OVERRIDES : List ((String × String) × PRat) := [
  (("flour", "cup"), pq 120 1),
  (("sugar", "cup"), pq 200 1),
  (("brown sugar", "cup"), pq 220 1),
  (("butter", "cup"), pq 227 1),
  (("butter", "tbsp"), pq 142 10),
  (("honey", "cup"), pq 340 1),
  (("oil", "cup"), pq 218 1),
  (("milk", "cup"), pq 244 1),
  (("water", "cup"), pq 237 1),
  (("salt", "tsp"), pq 6 1),
  (("baking powder", "tsp"), pq 48 10),
  (("baking soda", "tsp"), pq 6 1)]

def lookupOverride (nm unit : String) : Option PRat :=
  (INGREDIENT_UNIT_OVERRIDES.find? (fun p => p.1.1 == nm && p.1.2 == unit)).map (·.2)

/- ## UnitConversionService.convert -/

/-- The `ValueError`s `convert` can raise. -/
inductive ConvError where
  | unknownUnit
  | missingIngredient
  | noDensity
deriving DecidableEq, Repr

/-- Density path of `_convert_cross_type`: exact lookup, then the first
partial (either-direction substring) match in insertion order. -/
def densityConvert (quantity : PRat) (nm : String) (from_def to_def : UnitDefinition) :
    Except ConvError PRat :=
  let density : Option PRat :=
    match (INGREDIENT_DENSITIES.find? (fun p => p.1 == nm)).map (·.2) with
    | some d => some d
    | Option.none => (INGREDIENT_DENSITIES.find? (fun p => pyIn p.1 nm || pyIn nm p.1)).map (·.2)
  match density with
  | Option.none => .error .noDensity
  | some d =>
    if from_def.unit_type == UnitType.volume then
      .ok (((quantity.mul from_def.to_base_factor).mul d).div to_def.to_base_factor)
    else
      .ok (((quantity.mul from_def.to_base_factor).div d).div to_def.to_base_factor)

/-- `UnitConversionService._convert_cross_type`. -/
def convertCrossType (quantity : PRat) (from_unit to_unit nm0 : String)
    (from_def to_def : UnitDefinition) : Except ConvError PRat :=
  let nm := pyLower nm0
  if from_def.unit_type == UnitType.volume then
    match lookupOverride nm from_unit with
    | some gpu => .ok ((quantity.mul gpu).div to_def.to_base_factor)
    | Option.none => densityConvert quantity nm from_def to_def
  else
    match lookupOverride nm to_unit with
    | some gpu => .ok ((quantity.mul from_def.to_base_factor).div gpu)
    | Option.none => densityConvert quantity nm from_def to_def

/-- `UnitConversionService.convert`. -/
def convert (quantity : PRat) (from_unit to_unit : String) (ingredient_name : Option String) :
    Except ConvError PRat :=
  let fu := pyLower from_unit
  let tu := pyLower to_unit
  match lookupUnit fu, lookupUnit tu with
  | some from_def, some to_def =>
    if fu == tu then .ok quantity
    else if from_def.unit_type == UnitType.count && to_def.unit_type == UnitType.count then
      .ok quantity
    else if from_def.unit_type == to_def.unit_type then
      .ok ((quantity.mul from_def.to_base_factor).div to_def.to_base_factor)
    else
      match ingredient_name with
      | some nm => if nm == "" then .error .missingIngredient
                   else convertCrossType quantity fu tu nm from_def to_def
      | Option.none => .error .missingIngredient
  | _, _ => .error .unknownUnit

/- ## format_quantity_as_fraction (`src/ui/unit_conversion_dialog.py`) -/

/-- The `common_fractions` dict of `format_quantity_as_fraction`, in
insertion order (`0.3` stands for 1/3 and `0.6` for 2/3 by design). -/
def COMMON_FRACTIONS : List (PRat × String) :=
  [(pq 1 4, "1/4"), (pq 3 10, "1/3"), (pq 1 2, "1/2"), (pq 3 5, "2/3"), (pq 3 4, "3/4")]

/-- `format_quantity_as_fraction`: integers print bare, decimal parts within
0.08 of a common cooking fraction print as that fraction (prefixed by the
whole part), anything else falls back to 2- or 1-decimal fixed point. -/
def format_quantity_as_fraction (value : PRat) : String :=
  if value.den = 1 then intToStr value.num
  else
    let whole := PRat.truncI value
    let decimal_part := value.sub (pq whole 1)
    let sel := COMMON_FRACTIONS.foldl
      (fun (acc : PRat × Option String) p =>
        let diff := (decimal_part.sub p.1).absR
        if PRat.ltB diff acc.1 then (diff, some p.2) else acc)
      (pq 2 25, Option.none)
    match sel.2 with
    | some fr => if whole > 0 then intToStr whole ++ " " ++ fr else fr
    | Option.none => if PRat.ltB value (pq 1 1) then formatFixed value 2 else formatFixed value 1

/- ## ShoppingListService (`src/services/shopping_list_service.py`) -/

/-- A Python value that is a number, a string, or `None` (the shape of a
`display_quantity` and of an aggregated `amount`). -/
inductive PyVal where
  | num (q : PRat)
  | str (s : String)
  | none
deriving DecidableEq, Repr

/-- Python f-string rendering of a `PyVal`. -/
def strOfPyVal : PyVal → String
  | .num q => pyReprRat q
  | .str s => s
  | .none => "None"

/-- One entry of a hierarchy table: `(unit_name, unit_symbol, unit_in_base)`. -/
structure HEntry where
  uname : String
  symbol : String
  in_base : PRat
deriving DecidableEq, Repr

/-- `ShoppingListService.VOLUME_HIERARCHY` (base: ml). -/
def VOLUME_HIERARCHY : List HEntry := [
  ⟨"gallon", "gallon", pq 378541 100⟩,
  ⟨"quart", "quart", pq 946353 1000⟩,
  ⟨"pint", "pint", pq 473176 1000⟩,
  ⟨"cup", "cup", pq 236588 1000⟩,
  ⟨"fl oz", "fluid ounce", pq 295735 10000⟩,
  ⟨"tbsp", "tablespoon", pq 147868 10000⟩,
  ⟨"tsp", "teaspoon", pq 492892 100000⟩,
  ⟨"l", "liter", pq 1000 1⟩,
  ⟨"ml", "milliliter", pq 1 1⟩]

/-- `ShoppingListService.COOKING_VOLUME_HIERARCHY` (dry ingredients). -/
def COOKING_VOLUME_HIERARCHY : List HEntry := [
  ⟨"cup", "cup", pq 236588 1000⟩,
  ⟨"tbsp", "tablespoon", pq 147868 10000⟩,
  ⟨"tsp", "teaspoon", pq 492892 100000⟩]

/-- `ShoppingListService.MASS_HIERARCHY` (base: grams). -/
def MASS_HIERARCHY : List HEntry := [
  ⟨"lb", "lb", pq 453592 1000⟩,
  ⟨"oz", "oz", pq 283495 10000⟩,
  ⟨"kg", "kg", pq 1000 1⟩,
  ⟨"g", "g", pq 1 1⟩]

/-- The unit lists of `ShoppingListService._get_unit_type`. -/
def volume_units : List String :=
  ["ml", "milliliter", "milliliters", "l", "liter", "liters",
   "tsp", "teaspoon", "teaspoons", "tbsp", "tablespoon", "tablespoons",
   "cup", "cups", "fl oz", "fluid ounce", "fluid ounces",
   "pint", "pints", "quart", "quarts", "gallon", "gallons"]

def mass_units : List String :=
  ["g", "gram", "grams", "kg", "kilogram", "kilograms",
   "oz", "ounce", "ounces", "lb", "lbs", "pound", "pounds"]

def count_units : List String := ["count", "piece", "pieces", "whole", "item", "items"]

/-- `ShoppingListService._get_unit_type`. -/
def get_unit_type (unit : String) : Option UnitType :=
  let ul := pyStrip (pyLower unit)
  if volume_units.contains ul then some .volume
  else if mass_units.contains ul then some .mass
  else if count_units.contains ul then some .count
  else Option.none

/-- The dry-goods keyword list of `_format_consolidated_unit`. -/
def dry_ingredients : List String :=
  ["flour", "sugar", "salt", "powder", "starch", "meal", "rice", "oat"]

/-- The pluralization test of `_format_consolidated_unit`: a mixed fraction
always pluralizes, otherwise the (first `/`-part of the) amount must parse
and exceed 1; a parse failure means no pluralization. -/
def shouldPluralize (s : String) : Bool :=
  if s.data.contains ' ' then true
  else
    let base := if s.data.contains '/' then
        (match splitOnChar '/' s.data with
         | h :: _ => String.mk h
         | [] => "")
      else s
    match pyFloat? base with
    | some v => PRat.ltB (pq 1 1) v
    | Option.none => false

def pluralizeUnit (u : String) (plural : Bool) : String :=
  if plural && !endsWithS u then u ++ "s" else u

/-- One step of the greedy hierarchy walk of `_format_consolidated_unit`.
State: `(result_parts, remaining, units_used)`. -/
def hierStep (acc : List (String × String) × PRat × ℕ) (e : HEntry) :
    List (String × String) × PRat × ℕ :=
  let parts := acc.1
  let remaining := acc.2.1
  let used := acc.2.2
  if PRat.leB e.in_base remaining && decide (used < 2) then
    let c : ℤ := PRat.truncI (remaining.div e.in_base)
    let r2 := remaining.pymod e.in_base
    if c > 0 then (parts ++ [(format_quantity_as_fraction (pq c 1), e.symbol)], r2, used + 1)
    else (parts, r2, used)
  else acc

/-- The greedy hierarchy walk of `_format_consolidated_unit`: extract
whole-unit counts largest-first, updating the remainder by `%`, using at
most 2 unit levels. -/
def hierWalk (hierarchy : List HEntry) (amount : PRat) :
    List (String × String) × PRat × ℕ :=
  hierarchy.foldl hierStep ([], amount, 0)

/-- The remainder step of `_format_consolidated_unit`: append a remainder
term only if the remainder strictly exceeds 10% of the total and fewer than
2 levels were used, choosing the smallest unit putting it in `[0.1, 100)`. -/
def addRemainder (hierarchy : List HEntry) (amount : PRat)
    (st : List (String × String) × PRat × ℕ) : List (String × String) :=
  let parts := st.1
  let remaining := st.2.1
  let used := st.2.2
  if PRat.ltB (amount.mul (pq 1 10)) remaining && decide (used < 2) then
    match hierarchy.reverse.find? (fun e =>
        let r := remaining.div e.in_base
        PRat.leB (pq 1 10) r && PRat.ltB r (pq 100 1)) with
    | some e => parts ++ [(format_quantity_as_fraction (remaining.div e.in_base), e.symbol)]
    | Option.none => parts
  else parts

/-- The consolidated `{'amount', 'unit'}` dict. -/
structure Consolidated where
  amount : PyVal
  unit : String
deriving DecidableEq, Repr

/-- `ShoppingListService._format_consolidated_unit`. -/
def format_consolidated_unit (amount : PRat) (unit_type : UnitType) (ingredient_name : String) :
    Consolidated :=
  match unit_type with
  | .count => ⟨.str (format_quantity_as_fraction amount), "whole"⟩
  | _ =>
    let hierarchy :=
      if unit_type == UnitType.volume then
        if dry_ingredients.any (fun d => pyIn d (pyLower ingredient_name)) then
          COOKING_VOLUME_HIERARCHY
        else VOLUME_HIERARCHY
      else MASS_HIERARCHY
    let parts := addRemainder hierarchy amount (hierWalk hierarchy amount)
    match parts with
    | [] => ⟨.str (format_quantity_as_fraction amount), (hierarchy.getLastD ⟨"", "", pq 1 1⟩).symbol⟩
    | [p] => ⟨.str p.1, pluralizeUnit p.2 (shouldPluralize p.1)⟩
    | _ =>
      let formatted := parts.map (fun p => p.1 ++ " " ++ pluralizeUnit p.2 (shouldPluralize p.1))
      ⟨.str (joinWith " and " formatted), ""⟩

/-- One element of the `quantities` list handed to `_consolidate_quantities`
(restricted to the fields it reads). -/
structure QtyEntry where
  amount : PyVal
  unit : String
deriving DecidableEq, Repr

/-- The numeric/non-numeric partition of `_consolidate_quantities`: empty
amounts are skipped, numbers are numeric, strings parsing to a positive
float are numeric (re-tagged as numbers), everything else is non-numeric. -/
def partitionQ : List QtyEntry → List (PRat × String) × List QtyEntry
  | [] => ([], [])
  | q :: rest =>
    let r := partitionQ rest
    match q.amount with
    | .none => r
    | .num v => ((v, q.unit) :: r.1, r.2)
    | .str s =>
      if pyStrip s == "" then r
      else
        match pyFloat? s with
        | some v => if PRat.ltB (pq 0 1) v then ((v, q.unit) :: r.1, r.2) else (r.1, q :: r.2)
        | Option.none => (r.1, q :: r.2)

/-- Listing fallback when no amount is numeric: every original entry,
f-string formatted, comma-joined. -/
def listingAll (qs : List QtyEntry) : Consolidated :=
  ⟨.str (joinWith ", " (qs.map (fun q =>
      let u := pyStrip q.unit
      if u == "" then strOfPyVal q.amount else strOfPyVal q.amount ++ " " ++ u))), ""⟩

/-- Listing fallback for unknown/mixed unit types: numeric entries,
fraction-formatted, comma-joined. -/
def listingMixed (nums : List (PRat × String)) : Consolidated :=
  ⟨.str (joinWith ", " (nums.map (fun p =>
      let u := pyStrip p.2
      let fq := format_quantity_as_fraction p.1
      if u == "" then fq else fq ++ " " ++ u))), ""⟩

/-- Listing fallback when a base-unit conversion raises: numeric entries,
fraction-formatted with their raw unit strings, comma-joined. -/
def listingFailed (nums : List (PRat × String)) : Consolidated :=
  ⟨.str (joinWith ", " (nums.map (fun p => format_quantity_as_fraction p.1 ++ " " ++ p.2))), ""⟩

/-- All numeric entries share one unit string up to case and whitespace. -/
def sameUnitAll (nums : List (PRat × String)) : Bool :=
  match nums with
  | [] => true
  | (_, u0) :: _ => nums.all (fun p => pyStrip (pyLower p.2) == pyStrip (pyLower u0))

def unitTypesOf (nums : List (PRat × String)) : List (Option UnitType) :=
  nums.map (fun p => get_unit_type (pyStrip (pyLower p.2)))

/-- `None in unit_types or len(set(unit_types)) > 1`. -/
def mixedTypes (ts : List (Option UnitType)) : Bool :=
  ts.contains Option.none || decide ((dedupFirst ts).length > 1)

/-- Convert every numeric entry to the base unit and sum (the converter is
called with `ingredient_name=None`); the first converter error aborts. -/
def sumConverted (nums : List (PRat × String)) (base : String) : Except ConvError PRat :=
  nums.foldl
    (fun acc p =>
      match acc with
      | .error e => .error e
      | .ok s =>
        match convert p.1 p.2 base Option.none with
        | .ok v => .ok (s.add v)
        | .error e => .error e)
    (.ok (pq 0 1))

/-- Base-unit symbol of a unit type. -/
def baseUnitOf : UnitType → String
  | .volume => "ml"
  | .mass => "g"
  | .count => "count"

/-- The branches of `_consolidate_quantities` on the (nonempty) numeric
entries: identical units sum directly keeping the first unit string;
unknown or mixed unit types degrade to the fraction-formatted listing;
a uniform type sums in the base unit and re-expands, degrading to the
listing if any conversion raises. -/
def consolidateNums (nums : List (PRat × String)) (u0 : String) (ingredient_name : String) :
    Consolidated :=
  if sameUnitAll nums then
    ⟨.num (nums.foldl (fun a p => a.add p.1) (pq 0 1)), u0⟩
  else
    let ts := unitTypesOf nums
    if mixedTypes ts then listingMixed nums
    else
      let ut := (ts.headD Option.none).getD UnitType.count
      match sumConverted nums (baseUnitOf ut) with
      | .ok total => format_consolidated_unit total ut ingredient_name
      | .error _ => listingFailed nums

/-- `_consolidate_quantities` on a list that is not a single occurrence. -/
def consolidateMulti (quantities : List QtyEntry) (ingredient_name : String) : Consolidated :=
  match (partitionQ quantities).1 with
  | [] => listingAll quantities
  | (v0, u0) :: rest => consolidateNums ((v0, u0) :: rest) u0 ingredient_name

/-- `ShoppingListService._consolidate_quantities`.  Total: every exception
of the underlying converter is caught and degrades to a textual listing. -/
def consolidate_quantities (quantities : List QtyEntry) (ingredient_name : String) :
    Consolidated :=
  match quantities with
  | [q] => ⟨q.amount, q.unit⟩
  | _ => consolidateMulti quantities ingredient_name

/- ## Ingredient categorization and aggregation pipeline -/

def seasoning_keywords : List String :=
  ["black pepper", "cayenne pepper", "red pepper flakes",
   "pepper flakes", "ground black pepper", "ground pepper",
   "chili powder", "hot pepper sauce", "pepper sauce",
   "salt", "kosher salt", "sea salt", "seasoning",
   "oregano", "cumin", "cinnamon", "paprika",
   "hot sauce", "tabasco", "vanilla extract", "extract",
   "liquid smoke", "adobo", "dried basil", "dried oregano",
   "dried minced", "spice"]

def baking_keywords : List String :=
  ["flour", "all-purpose flour", "baking powder", "baking soda",
   "yeast", "chocolate chip", "cocoa", "confectioners",
   "shortening", "vegetable shortening",
   "brown sugar", "white sugar", "sugar", "honey"]

def produce_keywords : List String :=
  ["bell pepper", "onion", "tomato", "garlic", "cabbage",
   "mushroom", "cilantro", "parsley", "fresh basil",
   "lettuce", "carrot", "celery", "potato", "lemon",
   "lime", "shallot", "scallion", "ginger", "herb"]

def meat_keywords : List String :=
  ["beef", "pork", "chicken", "turkey", "sausage", "bacon",
   "meat", "steak", "tenderloin", "ribs", "pate", "liver",
   "shrimp", "fish", "tilapia", "salmon", "tuna", "seafood",
   "skinless"]

def dairy_keywords : List String :=
  ["milk", "cream", "cheese", "butter", "yogurt", "sour cream",
   "buttermilk", "mozzarella", "parmesan", "cheddar", "dairy"]

def pantry_keywords : List String :=
  ["oil", "olive oil", "vinegar", "broth", "stock", "wine",
   "pasta", "rice", "bread", "tortilla", "dough", "ketchup",
   "soy sauce", "pizza sauce", "sauce", "cornstarch", "bourbon",
   "liqueur", "juice", "egg", "walnut", "nut", "water",
   "puff pastry", "pastry"]

/-- `categorize_ingredient` (nested in `generate_shopping_list`): ordered
keyword-substring matching, most specific category first. -/
def categorize_ingredient (nm : String) : String :=
  let nl := pyLower nm
  if seasoning_keywords.any (fun k => pyIn k nl) then "Seasonings"
  else if baking_keywords.any (fun k => pyIn k nl) then "Baking"
  else if produce_keywords.any (fun k => pyIn k nl) then "Produce"
  else if meat_keywords.any (fun k => pyIn k nl) then "Meat"
  else if dairy_keywords.any (fun k => pyIn k nl) then "Dairy"
  else if pantry_keywords.any (fun k => pyIn k nl) then "Pantry"
  else "Uncategorized"

/-- The measurement-unit keyword list of the preparation-note filter in
`generate_shopping_list` (note the one-letter entries `"g"` and `"l"`). -/
def UNIT_KEYWORDS : List String :=
  ["cup", "tablespoon", "teaspoon", "tbsp", "tsp", "oz", "lb", "g", "kg", "ml", "l"]

/-- The preparation-note filter of `generate_shopping_list`: a preparation
is kept only if it does not contain the ingredient name, contains no
measurement-unit keyword as a substring, and contains no digit. -/
def prepKeptB (ingredient_name prepNote : String) : Bool :=
  let pl := pyLower prepNote
  !pyIn (pyLower ingredient_name) pl
    && !(UNIT_KEYWORDS.any (fun u => pyIn u pl))
    && !(prepNote.data.any Char.isDigit)

/-- One ingredient line of a recipe, as the services read it: the
ingredient's name and stored category, the display quantity (number, string
or `None`), the display unit, and the optional preparation note. -/
structure RecipeIng where
  iname : String
  icategory : Option String
  display_quantity : PyVal
  display_unit : String
  prepNote : Option String
deriving DecidableEq, Repr

/-- A recipe as the services read it. -/
structure SRecipe where
  title : String
  servings : Option ℤ
  prep_time_minutes : Option ℤ
  cook_time_minutes : Option ℤ
  total_time_minutes : Option ℤ
  ingredients : List RecipeIng
  instructions : Option String
  descr : Option String
deriving DecidableEq, Repr

/-- One occurrence dict appended to `ingredient_totals[name]['quantities']`. -/
structure OccEntry where
  amount : PyVal
  unit : String
  recipe : String
  prepNote : Option String
deriving DecidableEq, Repr

/-- Accumulated per-ingredient data of `ingredient_totals`, keyed in
insertion order. -/
structure IngTotal where
  iname : String
  occs : List OccEntry
  icategory : Option String
deriving DecidableEq, Repr

/-- Python truthiness of an optional string. -/
def catTruthy : Option String → Bool
  | some s => s != ""
  | Option.none => false

/-- Record one ingredient occurrence under its (exact) name, keeping the
first truthy stored category. -/
def addOccurrence (totals : List IngTotal) (nm : String) (occ : OccEntry)
    (cat : Option String) : List IngTotal :=
  match totals with
  | [] => [⟨nm, [occ], if catTruthy cat then cat else Option.none⟩]
  | t :: rest =>
    if t.iname == nm then
      ⟨t.iname, t.occs ++ [occ],
        if catTruthy cat && !catTruthy t.icategory then cat else t.icategory⟩ :: rest
    else t :: addOccurrence rest nm occ cat

/-- The flattening pass of `generate_shopping_list`: parse each display
quantity with `float(...)` (keeping the original value on failure) and group
occurrences by raw ingredient name. -/
def collectTotals (recipes : List SRecipe) : List IngTotal :=
  recipes.foldl
    (fun totals r =>
      r.ingredients.foldl
        (fun totals ri =>
          let amount : PyVal :=
            match ri.display_quantity with
            | .num q => .num q
            | .str s => (match pyFloat? s with
                         | some v => .num v
                         | Option.none => .str s)
            | .none => .none
          addOccurrence totals ri.iname ⟨amount, ri.display_unit, r.title, ri.prepNote⟩
            ri.icategory)
        totals)
    []

/-- One consolidated shopping-list item. -/
structure Item where
  iname : String
  quantity : PyVal
  unit : String
  category : String
  recipes : List String
  preparations : List String
deriving DecidableEq, Repr

/-- Build one consolidated item from the accumulated occurrences of one
ingredient: stored category (if truthy) else keyword categorization,
deduplicated source-recipe titles, filtered and deduplicated preparation
notes, and the consolidated quantity. -/
def itemOf (t : IngTotal) : Item :=
  let cat := match t.icategory with
    | some c => if c != "" then c else categorize_ingredient t.iname
    | Option.none => categorize_ingredient t.iname
  let recipeNames := dedupFirst (t.occs.map (·.recipe))
  let preps := dedupFirst (t.occs.filterMap (fun o =>
    match o.prepNote with
    | some p => if p != "" && prepKeptB t.iname p then some p else Option.none
    | Option.none => Option.none))
  let c := consolidate_quantities (t.occs.map (fun o => ⟨o.amount, o.unit⟩)) t.iname
  ⟨t.iname, c.amount, c.unit, cat, recipeNames, preps⟩

/-- `ShoppingListService.generate_shopping_list` up to (and including) the
construction of the consolidated item list; the final step of the source
merely groups these items by their `category` field and sorts each group. -/
def generate_shopping_items (recipes : List SRecipe) : List Item :=
  (collectTotals recipes).map itemOf

/- ## RecipeScalingService (`src/services/recipe_scaling_service.py`) -/

/-- Failures of `scale_recipe`: the two explicit `ValueError`s (invalid
servings, with their messages), and the uncaught `TypeError` that
`'-' in None` raises when a display quantity is `None`. -/
inductive ScaleError where
  | invalidServings (msg : String)
  | typeError
deriving DecidableEq, Repr

/-- One scaled ingredient dict (persistence-layer id field omitted). -/
structure ScaledIngredient where
  ingredient_name : String
  quantity : PyVal
  unit : String
  prepNote : Option String
deriving DecidableEq, Repr

/-- Scaling of a string quantity in `_scale_ingredient`: a string `float`
accepts scales numerically and rounds to 3 decimals; otherwise a string
containing `-` is scaled as a range (first two `-`-separated parts, each
stripped, parsed, scaled and rounded to 2 decimals), falling back to the
original string on any parse failure; any other string passes through
unchanged. -/
def scaleQuantityStr (s : String) (factor : PRat) : PyVal :=
  match pyFloat? s with
  | some q => .num (pyRound (q.mul factor) 3)
  | Option.none =>
    if s.data.contains '-' then
      match splitOnChar '-' s.data with
      | p0 :: p1 :: _ =>
        (match pyFloat? (pyStrip (String.mk p0)), pyFloat? (pyStrip (String.mk p1)) with
         | some a, some b =>
           .str (pyReprRat (pyRound (a.mul factor) 2) ++ "-" ++
                 pyReprRat (pyRound (b.mul factor) 2))
         | _, _ => .str s)
      | _ => .str s
    else .str s

/-- `RecipeScalingService._scale_ingredient`: a numeric quantity scales and
rounds to 3 decimals, a string quantity goes through `scaleQuantityStr`,
and a `None` quantity raises `TypeError` (`'-' in None`). -/
def scale_ingredient (ri : RecipeIng) (factor : PRat) : Except ScaleError ScaledIngredient :=
  match ri.display_quantity with
  | .num q => .ok ⟨ri.iname, .num (pyRound (q.mul factor) 3), ri.display_unit, ri.prepNote⟩
  | .str s => .ok ⟨ri.iname, scaleQuantityStr s factor, ri.display_unit, ri.prepNote⟩
  | .none => .error .typeError

/-- Scale every ingredient line, propagating the first failure. -/
def scaleAll (factor : PRat) : List RecipeIng → Except ScaleError (List ScaledIngredient)
  | [] => .ok []
  | ri :: rest =>
    match scale_ingredient ri factor with
    | .error e => .error e
    | .ok si =>
      match scaleAll factor rest with
      | .error e => .error e
      | .ok l => .ok (si :: l)

/-- The scaled-recipe result dict of `scale_recipe`. -/
structure ScaledRecipe where
  title : String
  original_title : String
  servings : ℤ
  original_servings : ℤ
  scale_factor : PRat
  prep_time_minutes : Option ℤ
  cook_time_minutes : Option ℤ
  total_time_minutes : Option ℤ
  ingredients : List ScaledIngredient
  instructions : Option String
  descr : Option String
deriving DecidableEq, Repr

/-- `RecipeScalingService.scale_recipe`.  The source guard is
`if not recipe.servings or recipe.servings == 0`, which is true exactly for
a missing or zero servings count (a negative count is falsy-free and passes). -/
def scale_recipe (recipe : SRecipe) (target_servings : ℤ) : Except ScaleError ScaledRecipe :=
  match recipe.servings with
  | Option.none => .error (.invalidServings "Original recipe must have a valid servings count")
  | some s =>
    if s = 0 then .error (.invalidServings "Original recipe must have a valid servings count")
    else if target_servings ≤ 0 then
      .error (.invalidServings "Target servings must be greater than 0")
    else
      let factor := pq target_servings s
      match scaleAll factor recipe.ingredients with
      | .error e => .error e
      | .ok ings =>
        .ok ⟨recipe.title ++ " (scaled to " ++ intToStr target_servings ++ " servings)",
             recipe.title, target_servings, s, factor,
             recipe.prep_time_minutes, recipe.cook_time_minutes, recipe.total_time_minutes,
             ings, recipe.instructions, recipe.descr⟩

/-- `Except.isOk` as a plain function. -/
def exceptOk {ε α : Type} : Except ε α → Bool
  | .ok _ => true
  | .error _ => false

/- ## Semantic lemmas -/

theorem toQ_mk (n d : ℤ) : toQ ⟨n, d⟩ = (n : ℚ) / d := rfl

theorem toQ_norm (a : PRat) : toQ (PRat.norm a) = toQ a := by
  rcases a with ⟨n, d⟩
  simp only [PRat.norm]
  by_cases hg : (Int.gcd n d : ℤ) = 0
  · have h0 : Int.gcd n d = 0 := by exact_mod_cast hg
    obtain ⟨hn, hd⟩ := Int.gcd_eq_zero_iff.mp h0
    simp [toQ, hn, hd, hg]
  · rw [if_neg hg]
    have hgn : (Int.gcd n d : ℤ) ∣ n := Int.gcd_dvd_left
    have hgd : (Int.gcd n d : ℤ) ∣ d := Int.gcd_dvd_right
    set g : ℤ := (Int.gcd n d : ℤ) with hgdef
    set s : ℤ := if d < 0 then -1 else 1 with hs
    have hs0 : s ≠ 0 := by
      rw [hs]; split <;> norm_num
    obtain ⟨n', hn'⟩ := hgn
    obtain ⟨d', hd'⟩ := hgd
    rw [toQ_mk, toQ_mk, hn', hd']
    have e1 : s * (g * n') = g * (s * n') := by ring
    have e2 : s * (g * d') = g * (s * d') := by ring
    rw [e1, e2, Int.mul_ediv_cancel_left _ hg, Int.mul_ediv_cancel_left _ hg]
    push_cast
    rw [mul_div_mul_left _ _ (show (s : ℚ) ≠ 0 by exact_mod_cast hs0),
        mul_div_mul_left _ _ (show (g : ℚ) ≠ 0 by exact_mod_cast hg)]

theorem toQ_pq (n d : ℤ) : toQ (pq n d) = (n : ℚ) / d := by
  rw [pq, toQ_norm, toQ_mk]

theorem toQ_mul (a b : PRat) : toQ (a.mul b) = toQ a * toQ b := by
  rw [PRat.mul, toQ_norm, toQ_mk]
  unfold toQ
  push_cast
  rw [div_mul_div_comm]

theorem toQ_div (a b : PRat) : toQ (a.div b) = toQ a / toQ b := by
  rw [PRat.div, toQ_norm, toQ_mk]
  unfold toQ
  push_cast
  symm
  rw [div_eq_mul_inv (a.num / a.den : ℚ), inv_div, div_mul_div_comm]

/-- Every factor in the unit table is positive (numerator and denominator). -/
theorem UNITS_factor_pos :
    (UNITS.all fun p =>
      decide (0 < p.2.to_base_factor.num) && decide (0 < p.2.to_base_factor.den)) = true := by
  decide

theorem lookup_factor_pos {u : String} {d : UnitDefinition} (h : lookupUnit u = some d) :
    0 < d.to_base_factor.num ∧ 0 < d.to_base_factor.den := by
  unfold lookupUnit at h
  cases hf : UNITS.find? (fun p => p.1 == u) with
  | none => rw [hf] at h; cases h
  | some p =>
    rw [hf] at h
    have hp : p ∈ UNITS := List.mem_of_find?_eq_some hf
    have hall := List.all_eq_true.mp UNITS_factor_pos p hp
    rw [Bool.and_eq_true, decide_eq_true_eq, decide_eq_true_eq] at hall
    cases h
    exact hall

theorem toQ_lookup_ne {u : String} {d : UnitDefinition} (h : lookupUnit u = some d) :
    toQ d.to_base_factor ≠ 0 := by
  obtain ⟨h1, h2⟩ := lookup_factor_pos h
  unfold toQ
  exact ne_of_gt (div_pos (by exact_mod_cast h1) (by exact_mod_cast h2))

/- ## Branch lemmas for `convert` -/

/-- With both lookups resolved, `convert` (without an ingredient name) is
the four-way branch of the source. -/
theorem convert_reduce {a b : String} {da db : UnitDefinition} (x : PRat)
    (hda : lookupUnit (pyLower a) = some da) (hdb : lookupUnit (pyLower b) = some db) :
    convert x a b Option.none =
      (if pyLower a == pyLower b then Except.ok x
       else if da.unit_type == UnitType.count && db.unit_type == UnitType.count then .ok x
       else if da.unit_type == db.unit_type then
         .ok ((x.mul da.to_base_factor).div db.to_base_factor)
       else .error .missingIngredient) := by
  simp only [convert]
  rw [hda, hdb]

theorem convert_self (x : PRat) (u : String) {d : UnitDefinition}
    (h : lookupUnit (pyLower u) = some d) : convert x u u Option.none = .ok x := by
  rw [convert_reduce x h h, if_pos (beq_self_eq_true (pyLower u))]

theorem convert_countBoth (x : PRat) {a b : String} {da db : UnitDefinition}
    (hda : lookupUnit (pyLower a) = some da) (hdb : lookupUnit (pyLower b) = some db)
    (hca : da.unit_type = .count) (hcb : db.unit_type = .count) :
    convert x a b Option.none = .ok x := by
  rw [convert_reduce x hda hdb]
  by_cases hab : pyLower a = pyLower b
  · rw [if_pos (by rw [hab]; exact beq_self_eq_true _)]
  · rw [if_neg (fun h => hab (eq_of_beq h)), hca, hcb, if_pos (by decide)]

theorem convert_sameType (x : PRat) {a b : String} {da db : UnitDefinition}
    (hda : lookupUnit (pyLower a) = some da) (hdb : lookupUnit (pyLower b) = some db)
    (hab : pyLower a ≠ pyLower b) (htype : da.unit_type = db.unit_type)
    (hnc : da.unit_type ≠ .count) :
    convert x a b Option.none = .ok ((x.mul da.to_base_factor).div db.to_base_factor) := by
  rw [convert_reduce x hda hdb, if_neg (fun h => hab (eq_of_beq h))]
  have h2 : ¬((da.unit_type == UnitType.count && db.unit_type == UnitType.count) = true) := by
    intro hc
    rw [Bool.and_eq_true, beq_iff_eq, beq_iff_eq] at hc
    exact hnc hc.1
  rw [if_neg h2, if_pos (by rw [htype]; exact beq_self_eq_true _)]

theorem convert_cross_noneIngredient (x : PRat) {a b : String} {da db : UnitDefinition}
    (hda : lookupUnit (pyLower a) = some da) (hdb : lookupUnit (pyLower b) = some db)
    (htype : da.unit_type ≠ db.unit_type) :
    convert x a b Option.none = .error .missingIngredient := by
  have hab : pyLower a ≠ pyLower b := by
    intro he
    rw [he, hdb] at hda
    injection hda with h
    exact htype (by rw [h])
  rw [convert_reduce x hda hdb, if_neg (fun h => hab (eq_of_beq h))]
  have h2 : ¬((da.unit_type == UnitType.count && db.unit_type == UnitType.count) = true) := by
    intro hc
    rw [Bool.and_eq_true, beq_iff_eq, beq_iff_eq] at hc
    exact htype (hc.1.trans hc.2.symm)
  rw [if_neg h2, if_neg (fun h => htype (eq_of_beq h))]

/- ## List-level helper lemmas -/

/-- A one-character needle is a substring whenever the character occurs. -/
theorem listContainsSub_singleton {c : Char} :
    ∀ {l : List Char}, l.contains c = true → listContainsSub [c] l = true := by
  intro l
  induction l with
  | nil => intro h; simp [List.contains] at h
  | cons a t ih =>
    intro h
    rw [List.contains_cons] at h
    rw [listContainsSub]
    cases hca : (c == a) with
    | true =>
      have hs : listStartsWith [c] (a :: t) = true := by
        simp [listStartsWith, hca]
      rw [hs, Bool.true_or]
    | false =>
      rw [hca, Bool.false_or] at h
      rw [ih h, Bool.or_true]

/-- Transfer a `decide`-checked `List.all` fact to a contained element. -/
theorem contains_all_prop {l : List String} {p : String → Bool} (hall : l.all p = true)
    {x : String} (hx : l.contains x = true) : p x = true :=
  List.all_eq_true.mp hall x (List.elem_iff.mp hx)

/- ## Invariants of the hierarchy walk -/

theorem hierStep_invariant (parts : List (String × String)) (rem : PRat) (used : ℕ)
    (e : HEntry) (h1 : parts.length = used) (h2 : used ≤ 2) :
    (hierStep (parts, rem, used) e).1.length = (hierStep (parts, rem, used) e).2.2 ∧
      (hierStep (parts, rem, used) e).2.2 ≤ 2 := by
  simp only [hierStep]
  split
  case isTrue hcond =>
    have hu : used < 2 := by
      rw [Bool.and_eq_true] at hcond
      simpa using of_decide_eq_true hcond.2
    split
    · refine ⟨?_, ?_⟩
      · simp [h1]
      · simp only []
        omega
    · exact ⟨h1, h2⟩
  case isFalse _ => exact ⟨h1, h2⟩

theorem foldl_hierStep_invariant :
    ∀ (l : List HEntry) (parts : List (String × String)) (rem : PRat) (used : ℕ),
      parts.length = used → used ≤ 2 →
      (l.foldl hierStep (parts, rem, used)).1.length =
          (l.foldl hierStep (parts, rem, used)).2.2 ∧
        (l.foldl hierStep (parts, rem, used)).2.2 ≤ 2 := by
  intro l
  induction l with
  | nil => intro parts rem used h1 h2; exact ⟨h1, h2⟩
  | cons e t ih =>
    intro parts rem used h1 h2
    rw [List.foldl_cons]
    obtain ⟨g1, g2⟩ := hierStep_invariant parts rem used e h1 h2
    rcases hst : hierStep (parts, rem, used) e with ⟨p2, r2, u2⟩
    rw [hst] at g1 g2
    simp only at g1 g2
    exact ih p2 r2 u2 g1 g2

/-- The humanizer emits at most 2 unit levels (walk plus remainder term). -/
theorem addRemainder_le_two (h : List HEntry) (amount : PRat) :
    (addRemainder h amount (hierWalk h amount)).length ≤ 2 := by
  rcases hst : hierWalk h amount with ⟨parts, rem, used⟩
  have hinv := foldl_hierStep_invariant h [] amount 0 rfl (by omega)
  rw [hierWalk] at hst
  rw [hst] at hinv
  simp only at hinv
  obtain ⟨h1, h2⟩ := hinv
  simp only [addRemainder]
  split
  case isTrue hcond =>
    have hu : used < 2 := by
      rw [Bool.and_eq_true] at hcond
      simpa using of_decide_eq_true hcond.2
    split
    · simp only [List.length_append, List.length_cons, List.length_nil]
      omega
    · omega
  case isFalse _ => omega

/- ## Case lemmas for the scaler -/

theorem scale_ingredient_ok (ri : RecipeIng) (f : PRat)
    (h : ri.display_quantity ≠ PyVal.none) : ∃ si, scale_ingredient ri f = .ok si := by
  rcases hq : ri.display_quantity with q | s | _
  · exact ⟨_, by rw [scale_ingredient, hq]⟩
  · exact ⟨_, by rw [scale_ingredient, hq]⟩
  · exact absurd hq h

theorem scale_ingredient_err (ri : RecipeIng) (f : PRat) (e : ScaleError)
    (h : scale_ingredient ri f = .error e) : e = .typeError := by
  rcases hq : ri.display_quantity with q | s | _ <;> rw [scale_ingredient, hq] at h
  · cases h
  · cases h
  · injection h with h2
    exact h2.symm

theorem scaleAll_err (f : PRat) :
    ∀ (l : List RecipeIng) (e : ScaleError), scaleAll f l = .error e → e = .typeError := by
  intro l
  induction l with
  | nil => intro e h; cases h
  | cons ri rest ih =>
    intro e h
    rw [scaleAll] at h
    cases hsi : scale_ingredient ri f with
    | error e2 =>
      rw [hsi] at h
      injection h with h2
      rw [← h2]
      exact scale_ingredient_err ri f e2 hsi
    | ok si =>
      rw [hsi] at h
      cases hrest : scaleAll f rest with
      | error e3 =>
        rw [hrest] at h
        injection h with h2
        rw [← h2]
        exact ih e3 hrest
      | ok l2 => rw [hrest] at h; cases h

theorem scaleAll_ok (f : PRat) :
    ∀ l : List RecipeIng, (∀ ri ∈ l, ri.display_quantity ≠ PyVal.none) →
      ∃ out, scaleAll f l = .ok out := by
  intro l
  induction l with
  | nil => intro _; exact ⟨[], rfl⟩
  | cons ri rest ih =>
    intro h
    obtain ⟨si, hsi⟩ := scale_ingredient_ok ri f (h ri (List.mem_cons_self ri rest))
    obtain ⟨out, hout⟩ := ih (fun x hx => h x (List.mem_cons_of_mem ri hx))
    exact ⟨si :: out, by rw [scaleAll, hsi, hout]⟩

/- ## Case lemmas for consolidation -/

/-- On lists that are not single occurrences, `_consolidate_quantities`
takes the multi-occurrence path. -/
theorem consolidate_eq_multi (qs : List QtyEntry) (nm : String) (h : qs.length ≠ 1) :
    consolidate_quantities qs nm = consolidateMulti qs nm := by
  rcases qs with _ | ⟨a, _ | ⟨b, t⟩⟩
  · rfl
  · exact absurd rfl h
  · rfl

theorem consolidateMulti_nums (qs : List QtyEntry) (nm : String) (v0 : PRat) (u0 : String)
    (rest : List (PRat × String)) (hpart : (partitionQ qs).1 = (v0, u0) :: rest) :
    consolidateMulti qs nm = consolidateNums ((v0, u0) :: rest) u0 nm := by
  simp only [consolidateMulti]
  rw [hpart]

theorem consolidateNums_sameUnit (nums : List (PRat × String)) (u0 nm : String)
    (h : sameUnitAll nums = true) :
    consolidateNums nums u0 nm = ⟨.num (nums.foldl (fun a p => a.add p.1) (pq 0 1)), u0⟩ := by
  simp only [consolidateNums]
  rw [if_pos h]

theorem consolidateNums_mixed (nums : List (PRat × String)) (u0 nm : String)
    (h1 : sameUnitAll nums = false) (h2 : mixedTypes (unitTypesOf nums) = true) :
    consolidateNums nums u0 nm = listingMixed nums := by
  simp only [consolidateNums]
  rw [if_neg (by rw [h1]; exact Bool.false_ne_true), if_pos h2]

/- ## Claim theorems -/

/-- C1: cross-type (volume-to-mass) conversion consults the
(ingredient, unit) override table before density:
`convert(1, "cup", "g", "flour")` returns exactly 120 (the override, not the
density value 119.95…) and `convert(1, "cup", "g", "water")` returns exactly
237 (the override, not the density value 236.588) — in particular both are
within tolerance 1 of the claimed values. -/
theorem spec_C1 :
    convert (pq 1 1) "cup" "g" (some "flour") = .ok (pq 120 1) ∧
    convert (pq 1 1) "cup" "g" (some "water") = .ok (pq 237 1) :=
  ⟨by decide, by decide⟩

/-- C2: for every quantity and every pair of recognized units of different
types (in particular volume vs mass), `convert` without an ingredient name
fails with the missing-ingredient-context error and never returns a
number. -/
theorem spec_C2 :
    ∀ (x : PRat) (fu tu : String) (fd td : UnitDefinition),
      lookupUnit (pyLower fu) = some fd → lookupUnit (pyLower tu) = some td →
      fd.unit_type ≠ td.unit_type →
      convert x fu tu Option.none = .error .missingIngredient := by
  intro x fu tu fd td h1 h2 h3
  exact convert_cross_noneIngredient x h1 h2 h3

/-- Witness for C2 at the spec's own example `convert(1, "cup", "g")`. -/
theorem spec_C2_witness :
    convert (pq 1 1) "cup" "g" Option.none = .error .missingIngredient :=
  spec_C2 (pq 1 1) "cup" "g"
    ⟨"cup", "cup", .volume, .us_customary, pq 236588 1000⟩
    ⟨"gram", "g", .mass, .metric, pq 1 1⟩
    (by decide) (by decide) (by decide)

/-- C3: consolidation never propagates a converter error.  Concretely,
"1 cup" plus "200 g" of an ingredient with no density data consolidates to
the literal listing `"1 cup, 200 g"` with an empty unit; in general,
whenever the numeric occurrences have mixed or unrecognized unit types the
result is the comma-joined fraction-formatted listing (`listingMixed`, a
plain value — the embedded consolidation is a total function, mirroring the
source which catches every converter exception internally). -/
theorem spec_C3 :
    consolidate_quantities [⟨.num (pq 1 1), "cup"⟩, ⟨.num (pq 200 1), "g"⟩] "gochujang"
        = ⟨.str "1 cup, 200 g", ""⟩ ∧
    ∀ (qs : List QtyEntry) (nm : String) (v0 : PRat) (u0 : String)
        (rest : List (PRat × String)),
      qs.length ≠ 1 →
      (partitionQ qs).1 = (v0, u0) :: rest →
      sameUnitAll ((v0, u0) :: rest) = false →
      mixedTypes (unitTypesOf ((v0, u0) :: rest)) = true →
      consolidate_quantities qs nm = listingMixed ((v0, u0) :: rest) := by
  constructor
  · decide
  · intro qs nm v0 u0 rest hlen hpart hsame hmix
    rw [consolidate_eq_multi qs nm hlen, consolidateMulti_nums qs nm v0 u0 rest hpart,
        consolidateNums_mixed _ _ _ hsame hmix]

/-- Witness for C3: the mixed-type branch at the concrete "1 cup" + "200 g"
input. -/
theorem spec_C3_witness :
    consolidate_quantities [⟨.num (pq 1 1), "cup"⟩, ⟨.num (pq 200 1), "g"⟩] "beef broth"
        = listingMixed [(pq 1 1, "cup"), (pq 200 1, "g")] :=
  spec_C3.2 [⟨.num (pq 1 1), "cup"⟩, ⟨.num (pq 200 1), "g"⟩] "beef broth"
    (pq 1 1) "cup" [(pq 200 1, "g")] (by decide) (by decide) (by decide) (by decide)

/-- C4 counterexample: consolidating "8 oz" and "1 lb" of a mass-type
ingredient does not produce "1 lb 8 oz": the source joins the parts with
" and " and pluralizes `oz` to `ozs` (its multi-part formatter has no
oz/tbsp/tsp exemption), yielding amount string "1 lb and 8 ozs". -/
theorem spec_C4_counterexample :
    (consolidate_quantities [⟨.num (pq 8 1), "oz"⟩, ⟨.num (pq 1 1), "lb"⟩] "stew beef").amount
        = .str "1 lb and 8 ozs" ∧
    (consolidate_quantities [⟨.num (pq 8 1), "oz"⟩, ⟨.num (pq 1 1), "lb"⟩] "stew beef").amount
        ≠ .str "1 lb 8 oz" :=
  ⟨by decide, by decide⟩

/-- C4 (amended): consolidating "8 oz" and "1 lb" of the same mass-type
ingredient produces, in exact arithmetic, the compound amount string
"1 lb and 8 ozs" with an empty unit field (largest unit first, parts joined
with " and ", units pluralized when their count exceeds 1); the hierarchy
walk emits at most 2 unit levels, a remainder term being added only when
the remainder strictly exceeds 10% of the total and fewer than 2 levels
were used. -/
theorem spec_C4 :
    consolidate_quantities [⟨.num (pq 8 1), "oz"⟩, ⟨.num (pq 1 1), "lb"⟩] "stew beef"
        = ⟨.str "1 lb and 8 ozs", ""⟩ ∧
    ∀ (h : List HEntry) (amount : PRat),
      (addRemainder h amount (hierWalk h amount)).length ≤ 2 :=
  ⟨by decide, addRemainder_le_two⟩

/-- C5 counterexample: a recipe whose `servings` is the negative number -2
passes the source's `not recipe.servings or recipe.servings == 0` guard, so
scaling it to 4 servings succeeds (with scale factor -2) instead of raising
the claimed InvalidServings error. -/
theorem spec_C5_counterexample :
    exceptOk (scale_recipe
      ⟨"Chili", some (-2), Option.none, Option.none, Option.none, [], Option.none, Option.none⟩
      4) = true := by
  decide

/-- C5 (amended): `scale_recipe` fails with InvalidServings exactly when the
original servings count is missing or zero, or the target is ≤ 0 — a
negative original servings count is accepted; and for every recipe with a
nonzero servings count, positive target, and Quantity-shaped (number or
string) ingredient quantities, it returns a scaled result without error. -/
theorem spec_C5 :
    (∀ (r : SRecipe) (t : ℤ),
      (∃ m, scale_recipe r t = .error (.invalidServings m)) ↔
        (r.servings = Option.none ∨ r.servings = some 0 ∨ t ≤ 0)) ∧
    (∀ (r : SRecipe) (t s : ℤ), r.servings = some s → s ≠ 0 → 0 < t →
      (∀ ri ∈ r.ingredients, ri.display_quantity ≠ PyVal.none) →
      exceptOk (scale_recipe r t) = true) := by
  constructor
  · intro r t
    cases hs : r.servings with
    | none =>
      constructor
      · intro _
        exact Or.inl rfl
      · intro _
        exact ⟨"Original recipe must have a valid servings count", by simp [scale_recipe, hs]⟩
    | some s =>
      by_cases hs0 : s = 0
      · subst hs0
        constructor
        · intro _
          exact Or.inr (Or.inl rfl)
        · intro _
          exact ⟨"Original recipe must have a valid servings count", by simp [scale_recipe, hs]⟩
      · by_cases ht : t ≤ 0
        · constructor
          · intro _
            exact Or.inr (Or.inr ht)
          · intro _
            exact ⟨"Target servings must be greater than 0",
              by simp [scale_recipe, hs, hs0, ht]⟩
        · constructor
          · rintro ⟨m, hm⟩
            exfalso
            simp only [scale_recipe, hs] at hm
            rw [if_neg hs0, if_neg ht] at hm
            cases hall : scaleAll (pq t s) r.ingredients with
            | ok out =>
              rw [hall] at hm
              exact Except.noConfusion hm
            | error e =>
              rw [hall] at hm
              injection hm with h2
              have he := scaleAll_err (pq t s) r.ingredients e hall
              rw [he] at h2
              exact ScaleError.noConfusion h2
          · rintro (h | h | h)
            · exact Option.noConfusion h
            · injection h with h2
              exact absurd h2 hs0
            · exact absurd h ht
  · intro r t s hs hs0 ht hq
    obtain ⟨out, hout⟩ := scaleAll_ok (pq t s) r.ingredients hq
    have ht' : ¬ t ≤ 0 := by omega
    simp [scale_recipe, hs, hs0, ht', hout, exceptOk]

/-- Witness for C5: target 0 raises InvalidServings, and a well-formed
recipe with positive servings scales to 8 without error. -/
theorem spec_C5_witness :
    (∃ m, scale_recipe
        ⟨"Chili", some 4, Option.none, Option.none, Option.none, [], Option.none, Option.none⟩
        0 = .error (.invalidServings m)) ∧
    exceptOk (scale_recipe
        ⟨"Chili", some 4, Option.none, Option.none, Option.none,
          [⟨"beans", Option.none, .str "2", "cups", Option.none⟩], Option.none, Option.none⟩
        8) = true :=
  ⟨(spec_C5.1 _ 0).mpr (Or.inr (Or.inr (by omega))),
   spec_C5.2 _ 8 4 rfl (by omega) (by omega) (by decide)⟩

/-- C6: scaling applies the factor to each line independently — a numeric
quantity becomes `round(quantity * factor, 3)`; the range "4-6" at factor 2
becomes the string "8.0-12.0" (each bound parsed, scaled, rounded to 2
decimals and re-joined); and an unparseable quantity (no float parse, no
range dash) is returned unchanged, never as an error. -/
theorem spec_C6 :
    scale_ingredient ⟨"eggs", Option.none, .str "4-6", "", Option.none⟩ (pq 2 1)
        = .ok ⟨"eggs", .str "8.0-12.0", "", Option.none⟩ ∧
    (∀ (ri : RecipeIng) (f q : PRat), ri.display_quantity = .num q →
      scale_ingredient ri f
          = .ok ⟨ri.iname, .num (pyRound (q.mul f) 3), ri.display_unit, ri.prepNote⟩) ∧
    (∀ (ri : RecipeIng) (f : PRat) (s : String), ri.display_quantity = .str s →
      pyFloat? s = Option.none → s.data.contains '-' = false →
      scale_ingredient ri f = .ok ⟨ri.iname, .str s, ri.display_unit, ri.prepNote⟩) := by
  refine ⟨by decide, ?_, ?_⟩
  · intro ri f q hq
    simp [scale_ingredient, hq]
  · intro ri f s hq hpf hdash
    have hsq : scaleQuantityStr s f = .str s := by
      simp only [scaleQuantityStr, hpf]
      rw [hdash]
      simp
    simp [scale_ingredient, hq, hsq]

/-- Witness for C6: a numeric quantity 1.5 doubled, and the unparseable
"to taste" left unchanged. -/
theorem spec_C6_witness :
    scale_ingredient ⟨"milk", Option.none, .num (pq 3 2), "cup", Option.none⟩ (pq 2 1)
        = .ok ⟨"milk", .num (pyRound ((pq 3 2).mul (pq 2 1)) 3), "cup", Option.none⟩ ∧
    scale_ingredient ⟨"salt", Option.none, .str "to taste", "", Option.none⟩ (pq 2 1)
        = .ok ⟨"salt", .str "to taste", "", Option.none⟩ :=
  ⟨spec_C6.2.1 _ (pq 2 1) (pq 3 2) rfl,
   spec_C6.2.2 _ (pq 2 1) "to taste" rfl (by decide) (by decide)⟩

/-- C7 counterexample: "pt" is recognized by the unit table (as a volume
unit) but the aggregator's classifier `_get_unit_type` does not recognize
it, contradicting the claim that the classifier agrees with UnitTable on
every recognized unit including the abbreviation "pt". -/
theorem spec_C7_counterexample :
    (lookupUnit "pt").isSome = true ∧ get_unit_type "pt" = Option.none :=
  ⟨by decide, by decide⟩

/-- The units the unit table recognizes but `_get_unit_type` does not. -/
def classifierGapUnits : List String :=
  ["mg", "milligram", "milligrams", "pt", "qt", "gal", "drop", "drops", "dash", "pinch",
   "clove", "cloves"]

/-- The units `_get_unit_type` recognizes but the unit table does not. -/
def classifierExtraUnits : List String := ["item", "items"]

/-- C7 (amended): the aggregator's classifier agrees with the unit table's
`UnitDefinition` type on every recognized unit string except the
abbreviations/units `mg, milligram(s), pt, qt, gal, drop(s), dash, pinch,
clove(s)` (recognized by the table, unclassified by the aggregator); it
additionally classifies `item`/`items` as count although the table does not
recognize them, and classifies nothing else the table does not know. -/
theorem spec_C7 :
    (UNITS.all fun p =>
        classifierGapUnits.contains p.1 || (get_unit_type p.1 == some p.2.unit_type)) = true ∧
    (classifierGapUnits.all fun s => (lookupUnit s).isSome && (get_unit_type s).isNone) = true ∧
    (classifierExtraUnits.all fun s =>
        (lookupUnit s).isNone && (get_unit_type s == some UnitType.count)) = true ∧
    ∀ (u : String) (t : UnitType), get_unit_type u = some t →
      (lookupUnit (pyStrip (pyLower u))).isSome = true ∨
        classifierExtraUnits.contains (pyStrip (pyLower u)) = true := by
  refine ⟨by decide, by decide, by decide, ?_⟩
  intro u t hgt
  simp only [get_unit_type] at hgt
  set n := pyStrip (pyLower u) with hn
  by_cases h1 : volume_units.contains n = true
  · left
    have hall : (volume_units.all fun s => (lookupUnit s).isSome) = true := by decide
    exact contains_all_prop hall h1
  · by_cases h2 : mass_units.contains n = true
    · left
      have hall : (mass_units.all fun s => (lookupUnit s).isSome) = true := by decide
      exact contains_all_prop hall h2
    · by_cases h3 : count_units.contains n = true
      · have hall : (count_units.all fun s =>
            (lookupUnit s).isSome || classifierExtraUnits.contains s) = true := by decide
        have hp := contains_all_prop hall h3
        cases hx : (lookupUnit n).isSome with
        | true => exact Or.inl rfl
        | false =>
          right
          rw [hx, Bool.false_or] at hp
          exact hp
      · exfalso
        rw [if_neg h1, if_neg h2, if_neg h3] at hgt
        cases hgt

/-- Witness for C7: the plural "cups", classified volume, is indeed
recognized by the unit table. -/
theorem spec_C7_witness :
    (lookupUnit (pyStrip (pyLower "cups"))).isSome = true ∨
      classifierExtraUnits.contains (pyStrip (pyLower "cups")) = true :=
  spec_C7.2.2.2 "cups" UnitType.volume (by decide)

/-- C8: aggregating "1 cup flour" from one recipe and "2 cups flour" from
another (same ingredient name, no stored category) yields the single
consolidated item "3 cups" of flour in category Baking; and in general,
numeric occurrences whose unit strings are identical up to case and
whitespace are summed directly and keep the first occurrence's unit
string. -/
theorem spec_C8 :
    generate_shopping_items
        [⟨"Recipe A", some 4, Option.none, Option.none, Option.none,
          [⟨"flour", Option.none, .str "1", "cup", Option.none⟩], Option.none, Option.none⟩,
         ⟨"Recipe B", some 2, Option.none, Option.none, Option.none,
          [⟨"flour", Option.none, .str "2", "cups", Option.none⟩], Option.none, Option.none⟩]
      = [⟨"flour", .str "3", "cups", "Baking", ["Recipe A", "Recipe B"], []⟩] ∧
    ∀ (qs : List QtyEntry) (nm : String) (v0 : PRat) (u0 : String)
        (rest : List (PRat × String)),
      qs.length ≠ 1 →
      (partitionQ qs).1 = (v0, u0) :: rest →
      sameUnitAll ((v0, u0) :: rest) = true →
      consolidate_quantities qs nm
          = ⟨.num (((v0, u0) :: rest).foldl (fun a p => a.add p.1) (pq 0 1)), u0⟩ := by
  constructor
  · decide
  · intro qs nm v0 u0 rest hlen hpart hsame
    rw [consolidate_eq_multi qs nm hlen, consolidateMulti_nums qs nm v0 u0 rest hpart,
        consolidateNums_sameUnit _ _ _ hsame]

/-- Witness for C8: two same-unit "cup" occurrences sum directly. -/
theorem spec_C8_witness :
    consolidate_quantities [⟨.num (pq 1 1), "cup"⟩, ⟨.num (pq 2 1), "cup"⟩] "flour"
        = ⟨.num (((pq 1 1, "cup") :: [(pq 2 1, "cup")]).foldl (fun a p => a.add p.1) (pq 0 1)),
           "cup"⟩ :=
  spec_C8.2 [⟨.num (pq 1 1), "cup"⟩, ⟨.num (pq 2 1), "cup"⟩] "flour"
    (pq 1 1) "cup" [(pq 2 1, "cup")] (by decide) (by decide) (by decide)

/-- C9: `convert` is the identity when source and target units are equal,
and same-type conversion round-trips exactly in exact arithmetic: the
forward conversion succeeds, the backward conversion succeeds, and the
result has the same rational value as the input. -/
theorem spec_C9 :
    (∀ (x : PRat) (u : String) (d : UnitDefinition), lookupUnit (pyLower u) = some d →
      convert x u u Option.none = .ok x) ∧
    (∀ (x : PRat) (a b : String) (da db : UnitDefinition),
      lookupUnit (pyLower a) = some da → lookupUnit (pyLower b) = some db →
      da.unit_type = db.unit_type →
      ∃ y z, convert x a b Option.none = .ok y ∧ convert y b a Option.none = .ok z ∧
        toQ z = toQ x) := by
  constructor
  · intro x u d h
    exact convert_self x u h
  · intro x a b da db hda hdb htype
    by_cases hab : pyLower a = pyLower b
    · refine ⟨x, x, ?_, ?_, rfl⟩
      · rw [convert_reduce x hda hdb, if_pos (by rw [hab]; exact beq_self_eq_true _)]
      · rw [convert_reduce x hdb hda, if_pos (by rw [← hab]; exact beq_self_eq_true _)]
    · by_cases hc : da.unit_type = .count
      · exact ⟨x, x, convert_countBoth x hda hdb hc (htype ▸ hc),
          convert_countBoth x hdb hda (htype ▸ hc) hc, rfl⟩
      · refine ⟨(x.mul da.to_base_factor).div db.to_base_factor,
          (((x.mul da.to_base_factor).div db.to_base_factor).mul db.to_base_factor).div
            da.to_base_factor,
          convert_sameType x hda hdb hab htype hc,
          convert_sameType _ hdb hda (fun h => hab h.symm) htype.symm
            (fun h => hc (htype.trans h)), ?_⟩
        rw [toQ_div, toQ_mul, toQ_div, toQ_mul]
        have hfa : toQ da.to_base_factor ≠ 0 := toQ_lookup_ne hda
        have hfb : toQ db.to_base_factor ≠ 0 := toQ_lookup_ne hdb
        field_simp

/-- Witness for C9: identity at `convert(5, "g", "g")` and an exact
round-trip g → oz → g at 3 grams. -/
theorem spec_C9_witness :
    convert (pq 5 1) "g" "g" Option.none = .ok (pq 5 1) ∧
    ∃ y z, convert (pq 3 1) "g" "oz" Option.none = .ok y ∧
      convert y "oz" "g" Option.none = .ok z ∧ toQ z = toQ (pq 3 1) :=
  ⟨spec_C9.1 (pq 5 1) "g" ⟨"gram", "g", .mass, .metric, pq 1 1⟩ (by decide),
   spec_C9.2 (pq 3 1) "g" "oz" ⟨"gram", "g", .mass, .metric, pq 1 1⟩
     ⟨"ounce", "oz", .mass, .imperial, pq 283495 10000⟩ (by decide) (by decide) rfl⟩

/-- C10: the preparation-note filter's measurement-unit keyword list
contains the one-letter strings "g" and "l" checked by substring
containment, so every preparation whose lowercase form contains the letter
g or the letter l anywhere is dropped (the filter returns false), whatever
the ingredient name and regardless of digits. -/
theorem spec_C10 :
    ∀ (nm p : String),
      (pyLower p).data.contains 'g' = true ∨ (pyLower p).data.contains 'l' = true →
      prepKeptB nm p = false := by
  intro nm p h
  have hany : (UNIT_KEYWORDS.any fun u => pyIn u (pyLower p)) = true := by
    apply List.any_eq_true.mpr
    rcases h with h | h
    · exact ⟨"g", by decide, listContainsSub_singleton h⟩
    · exact ⟨"l", by decide, listContainsSub_singleton h⟩
  simp [prepKeptB, hany]

/-- Witness for C10: the genuine preparation note "grated" (no digits, not
the ingredient name) is silently dropped for a carrot. -/
theorem spec_C10_witness : prepKeptB "carrot" "grated" = false :=
  spec_C10 "carrot" "grated" (Or.inl (by decide))
